import Mathlib

/-!
Verification development for the lecture-assistant repository.

The repository has two graph implementations: `src/backend/graph_async.py`
(web-based, suspend/resume HITL) and `src/lecture_assistant/graph.py`
(console, blocking HITL), plus the FastAPI server `src/backend/main.py`
and the search aggregator `src/backend/research.py`.  Python dict-typed
`LectureState` (a `total=False` TypedDict) is embedded as a record whose
feedback fields are `Option String` (absent vs. set); a node's returned
partial dict is a `StateUpdate` record of `Option` fields merged
last-write-wins by `applyUpdate`.  LLM chains and the Tavily search call
are external collaborators and enter as function parameters.
-/

/-- Python `s.strip()`: drop leading and trailing whitespace. -/
def pyStripWs (s : String) : String :=
  String.mk (((s.data.dropWhile Char.isWhitespace).reverse.dropWhile Char.isWhitespace).reverse)

/-- Python `s.strip(chars)`: drop leading and trailing characters from `cs`. -/
def pyStripChars (cs : List Char) (s : String) : String :=
  String.mk (((s.data.dropWhile (cs.contains ·)).reverse.dropWhile (cs.contains ·)).reverse)

/-- Python `s.lower()` (ASCII case, which is all the sentinels use). -/
def pyLower (s : String) : String :=
  String.mk (s.data.map Char.toLower)

/-- Python `(state.get(k) or "")` / `state.get(k, "")` on an optional string field:
both yield `""` for an absent field, and `"" or ""` is `""`, so one helper covers both. -/
def optOrEmpty (o : Option String) : String :=
  o.getD ""

/-- Python `str.splitlines` restricted to the `\n`, `\r`, `\r\n` boundaries:
a trailing terminator does not produce a trailing empty line.  The Boolean
argument records whether the previous character was `\r`, so that `\r\n`
counts as a single boundary. -/
def pySplitlinesAux : Bool → List Char → List Char → List String
  | _, [], acc => if acc.isEmpty then [] else [String.mk acc.reverse]
  | prevCR, c :: rest, acc =>
    if c = '\n' then
      if prevCR then pySplitlinesAux false rest acc
      else String.mk acc.reverse :: pySplitlinesAux false rest []
    else if c = '\r' then String.mk acc.reverse :: pySplitlinesAux true rest []
    else pySplitlinesAux false rest (c :: acc)

def pySplitlines (s : String) : List String :=
  pySplitlinesAux false s.data []

/-- The `SearchResult` dataclass of research.py lines 15-19. -/
structure SearchResult where
  title : String := ""
  link : String := ""
  snippet : String := ""
deriving DecidableEq, Repr

/-- A `{title, url/link, snippet, query}` source dict. -/
structure SourceRec where
  title : String := ""
  url : String := ""
  snippet : String := ""
  query : String := ""
deriving DecidableEq, Repr

/-- A claim dict `{id, text, citations}` as produced by `claims_extract`. -/
structure ClaimObj where
  id : Int := 0
  text : String := ""
  citations : List String := []
deriving DecidableEq, Repr

/-- `citation_map : Dict[str, Dict[str, str]]` as an association list. -/
abbrev CitationMap := List (String × List (String × String))

/-- The `LectureState` TypedDict (graph_async.py lines 15-58).  `topic` is read
with `state["topic"]` (required); the feedback fields and the checkpoint tag are
read through `state.get`, so they are `Option`-typed. -/
structure LectureState where
  topic : String := ""
  seed : Int := 42
  search_queries : List String := []
  search_results : List SourceRec := []
  plan_summary : String := ""
  plan_feedback : Option String := none
  extracted_sources : List SourceRec := []
  prioritized_sources : List SourceRec := []
  claims : List ClaimObj := []
  citation_map : CitationMap := []
  claims_feedback : Option String := none
  outline : String := ""
  human_feedback : Option String := none
  tone_prefs : Option String := none
  brief : String := ""
  formatted_brief : String := ""
  status : String := ""
  waiting_for_human : Bool := false
  checkpoint_type : Option String := none
deriving DecidableEq, Repr

/-- A node's returned partial dict: `none` means the key is absent from the
returned dict, `some v` that the node set it.  For the `Optional[str]` field
`_checkpoint_type` the set value is itself an `Option String` (`some none`
models setting it to Python `None`). -/
structure StateUpdate where
  topic : Option String := none
  seed : Option Int := none
  search_queries : Option (List String) := none
  search_results : Option (List SourceRec) := none
  plan_summary : Option String := none
  plan_feedback : Option String := none
  extracted_sources : Option (List SourceRec) := none
  prioritized_sources : Option (List SourceRec) := none
  claims : Option (List ClaimObj) := none
  citation_map : Option CitationMap := none
  claims_feedback : Option String := none
  outline : Option String := none
  human_feedback : Option String := none
  tone_prefs : Option String := none
  brief : Option String := none
  formatted_brief : Option String := none
  status : Option String := none
  waiting_for_human : Option Bool := none
  checkpoint_type : Option (Option String) := none
deriving DecidableEq, Repr

/-- Last-write-wins merge of a node's partial update into the state
(the Executor's per-field shallow merge). -/
def applyUpdate (s : LectureState) (u : StateUpdate) : LectureState where
  topic := u.topic.getD s.topic
  seed := u.seed.getD s.seed
  search_queries := u.search_queries.getD s.search_queries
  search_results := u.search_results.getD s.search_results
  plan_summary := u.plan_summary.getD s.plan_summary
  plan_feedback := match u.plan_feedback with | some v => some v | none => s.plan_feedback
  extracted_sources := u.extracted_sources.getD s.extracted_sources
  prioritized_sources := u.prioritized_sources.getD s.prioritized_sources
  claims := u.claims.getD s.claims
  citation_map := u.citation_map.getD s.citation_map
  claims_feedback := match u.claims_feedback with | some v => some v | none => s.claims_feedback
  outline := u.outline.getD s.outline
  human_feedback := match u.human_feedback with | some v => some v | none => s.human_feedback
  tone_prefs := match u.tone_prefs with | some v => some v | none => s.tone_prefs
  brief := u.brief.getD s.brief
  formatted_brief := u.formatted_brief.getD s.formatted_brief
  status := u.status.getD s.status
  waiting_for_human := u.waiting_for_human.getD s.waiting_for_human
  checkpoint_type := u.checkpoint_type.getD s.checkpoint_type

/-! ## The async (web HITL) graph: `src/backend/graph_async.py`

Each node closes over the chat model; a node that invokes its
`prompt | llm | StrOutputParser` chain takes that chain as a function
parameter (the prompt templates are external files, out of scope).  Nodes
that never touch the model still receive the parameter, mirroring the
closure, so that independence from it can be stated. -/

namespace backend

/-- `search_plan_node` (graph_async.py lines 80-108): derive up to five search
queries from the model's line-separated output.  Note the returned dict does
not contain `plan_feedback`. -/
def search_plan_node (llm : String → String) (s : LectureState) : StateUpdate :=
  let topic := s.topic
  let pf := pyStripWs (optOrEmpty s.plan_feedback)
  let guided_topic :=
    if pf ≠ "" ∧ pf ≠ "approve" then topic ++ " (constraints: " ++ pf ++ ")" else topic
  let queries_text := llm guided_topic
  let queries :=
    ((pySplitlines queries_text).filter (fun q => pyStripWs q ≠ "")).map
      (fun q => pyStripWs (pyStripChars ['-', ' '] q))
  { search_queries := some (queries.take 5)
    status := some "search_planning"
    waiting_for_human := some false }

/-- `plan_review_node` (graph_async.py lines 153-186): two-phase HITL node.
The body never references the model. -/
def plan_review_node (_llm : String → String) (s : LectureState) : StateUpdate :=
  let existing := pyStripWs (optOrEmpty s.plan_feedback)
  if existing = "" ∨ existing = "pending" then
    { plan_feedback := some "pending"
      status := some "plan_review"
      waiting_for_human := some true
      checkpoint_type := some (some "plan_review") }
  else
    { plan_feedback := some existing
      status := some "plan_review"
      waiting_for_human := some false
      checkpoint_type := some none }

/-- `needs_replan` (graph_async.py lines 188-191). -/
def needs_replan (s : LectureState) : String :=
  let fb := pyLower (pyStripWs (optOrEmpty s.plan_feedback))
  if fb ≠ "" ∧ fb ≠ "approve" ∧ fb ≠ "pending" then "replan" else "continue"

/-- `claims_extract_node` (graph_async.py lines 259-294).  `chain` is the
claim-extraction model chain on `(topic, sources)`; `jsonParse` abstracts the
`json.loads` plus dict access in the `try` block: `none` when `json.loads`
raises or its result is not an object (so `.get` raises), `some (c, m)` when
it yields an object whose optional `claims`/`citation_map` entries are `c`/`m`. -/
def claims_extract_node (jsonParse : String → Option (Option (List ClaimObj) × Option CitationMap))
    (chain : String → List SourceRec → String) (s : LectureState) : StateUpdate :=
  let sources := s.prioritized_sources
  let raw := chain s.topic sources
  let parsed :=
    match jsonParse raw with
    | some (c, m) => (c.getD [], m.getD [])
    | none => ([{ id := 1, text := raw, citations := [] }], ([] : CitationMap))
  { claims := some parsed.1
    citation_map := some parsed.2
    status := some "claims_extracting"
    waiting_for_human := some false }

/-- `claims_review_node` (graph_async.py lines 296-327): two-phase HITL node,
no model use. -/
def claims_review_node (_llm : String → String) (s : LectureState) : StateUpdate :=
  let existing := pyStripWs (optOrEmpty s.claims_feedback)
  if existing = "" ∨ existing = "pending" then
    { claims_feedback := some "pending"
      status := some "claims_review"
      waiting_for_human := some true
      checkpoint_type := some (some "claims_review") }
  else
    { claims_feedback := some existing
      status := some "claims_review"
      waiting_for_human := some false
      checkpoint_type := some none }

/-- `review_node` (graph_async.py lines 329-360): two-phase HITL node, no model
use.  Unlike the other review nodes it reads `state.get("human_feedback", "")`
without stripping. -/
def review_node (_llm : String → String) (s : LectureState) : StateUpdate :=
  let existing_feedback := optOrEmpty s.human_feedback
  if existing_feedback = "" ∨ existing_feedback = "pending" then
    { human_feedback := some "pending"
      status := some "review"
      waiting_for_human := some true
      checkpoint_type := some (some "review") }
  else
    { human_feedback := some existing_feedback
      status := some "review"
      waiting_for_human := some false
      checkpoint_type := some none }

/-- `tone_review_node` (graph_async.py lines 394-425): waits only when the
stripped `tone_prefs` equals the literal sentinel `"pending"`; an empty value
completes immediately.  No model use. -/
def tone_review_node (_llm : String → String) (s : LectureState) : StateUpdate :=
  let existing := pyStripWs (optOrEmpty s.tone_prefs)
  if existing = "pending" then
    { tone_prefs := some "pending"
      status := some "tone_review"
      waiting_for_human := some true
      checkpoint_type := some (some "tone_review") }
  else
    { tone_prefs := some (if existing = "" then "" else existing)
      status := some "tone_review"
      waiting_for_human := some false
      checkpoint_type := some none }

/-- `tone_next` (graph_async.py lines 555-558). -/
def tone_next (s : LectureState) : String :=
  let prefs := pyStripWs (optOrEmpty s.tone_prefs)
  if prefs ≠ "" ∧ prefs ≠ "skip" ∧ prefs ≠ "pending" then "apply" else "skip"

end backend

/-! ## The console graph: `src/lecture_assistant/graph.py` -/

namespace lecture_assistant

/-- `search_plan_node` (graph.py lines 79-108): same query derivation, but the
returned dict resets `plan_feedback` to `"approve"` ("Clear previously-applied
plan_feedback to avoid infinite replan loop"), and guides the topic on any
non-empty feedback. -/
def search_plan_node (llm : String → String) (s : LectureState) : StateUpdate :=
  let topic := s.topic
  let pf := pyStripWs (optOrEmpty s.plan_feedback)
  let guided_topic :=
    if pf ≠ "" then topic ++ " (constraints: " ++ pf ++ ")" else topic
  let queries_text := llm guided_topic
  let queries :=
    ((pySplitlines queries_text).filter (fun q => pyStripWs q ≠ "")).map
      (fun q => pyStripWs (pyStripChars ['-', ' '] q))
  { search_queries := some (queries.take 5)
    plan_feedback := some "approve"
    status := some "search_planning" }

/-- `needs_replan` (graph.py lines 187-191): excludes only `"approve"`, not
`"pending"`. -/
def needs_replan (s : LectureState) : String :=
  let fb := pyLower (pyStripWs (optOrEmpty s.plan_feedback))
  if fb ≠ "" ∧ fb ≠ "approve" then "replan" else "continue"

/-- `tone_next` (graph.py lines 551-555): `"apply"` for any non-empty stripped
`tone_prefs`, with no sentinel exclusion. -/
def tone_next (s : LectureState) : String :=
  let prefs := pyStripWs (optOrEmpty s.tone_prefs)
  if prefs ≠ "" then "apply" else "skip"

end lecture_assistant

/-! ## Association-list rendering of Python dicts (unique keys). -/

def tableLookup {α : Type} : List (String × α) → String → Option α
  | [], _ => none
  | (k, v) :: rest, key => if k = key then some v else tableLookup rest key

def tableSet {α : Type} : List (String × α) → String → α → List (String × α)
  | [], key, v => [(key, v)]
  | (k, w) :: rest, key, v =>
    if k = key then (key, v) :: rest else (k, w) :: tableSet rest key v

def tableErase {α : Type} : List (String × α) → String → List (String × α)
  | [], _ => []
  | (k, v) :: rest, key =>
    if k = key then tableErase rest key else (k, v) :: tableErase rest key

/-- Python `list.remove(a)`: delete the first occurrence of `a`
(no-op here when absent; every call site removes a present element). -/
def removeFirst {α : Type} [DecidableEq α] : List α → α → List α
  | [], _ => []
  | x :: rest, a => if x = a then rest else x :: removeFirst rest a

/-! ## The FastAPI server: `src/backend/main.py` -/

namespace backend

/-- A live WebSocket connection, identified for equality (Python compares the
socket objects themselves in `list.remove`). -/
structure Conn where
  cid : Nat := 0
deriving DecidableEq, Repr

/-- The subset of an `active_sessions[session_id]` dict the verified endpoints
read or write: the stored `WorkflowState` snapshot.  `none` renders both the
initial `"state": None` and a missing/empty value (`if not state`). -/
structure SessionRec where
  state : Option LectureState := none
deriving DecidableEq, Repr

/-- The compiled graph object held in `session_graphs[session_id]`, opaque to
the verified endpoints. -/
structure GraphHandle where
  gid : Nat := 0
deriving DecidableEq, Repr

/-- The module-level mutable server state: `active_sessions`, `session_graphs`
and `manager.active_connections`. -/
structure ServerState where
  active_sessions : List (String × SessionRec) := []
  session_graphs : List (String × GraphHandle) := []
  active_connections : List (String × List Conn) := []
deriving DecidableEq, Repr

/-- `submit_feedback` (main.py lines 553-591).  Returns the registry after the
call together with either an HTTP error `(status, detail)` or `ok b`, where
`b = true` records that `asyncio.create_task(continue_session(session_id))`
was scheduled.  An `HTTPException` leaves the registry exactly as given. -/
def submit_feedback (reg : List (String × SessionRec))
    (session_id checkpoint_type decision : String) :
    List (String × SessionRec) × Except (Nat × String) Bool :=
  match tableLookup reg session_id with
  | none => (reg, .error (404, "Session not found"))
  | some session =>
    match session.state with
    | none => (reg, .error (400, "Session state not available"))
    | some st =>
      if checkpoint_type = "plan_review" then
        (tableSet reg session_id { session with state := some { st with plan_feedback := some decision } }, .ok true)
      else if checkpoint_type = "claims_review" then
        (tableSet reg session_id { session with state := some { st with claims_feedback := some decision } }, .ok true)
      else if checkpoint_type = "review" then
        (tableSet reg session_id { session with state := some { st with human_feedback := some decision } }, .ok true)
      else if checkpoint_type = "tone_review" then
        (tableSet reg session_id { session with state := some { st with tone_prefs := some decision } }, .ok true)
      else
        (reg, .error (400, "Unknown checkpoint: " ++ checkpoint_type))

/-- `delete_session` (main.py lines 631-640): deletes the session record and,
when present, the stored graph.  It does not touch
`manager.active_connections`. -/
def delete_session (srv : ServerState) (session_id : String) :
    ServerState × Except (Nat × String) String :=
  match tableLookup srv.active_sessions session_id with
  | none => (srv, .error (404, "Session not found"))
  | some _ =>
    ({ srv with
        active_sessions := tableErase srv.active_sessions session_id
        session_graphs := tableErase srv.session_graphs session_id },
     .ok "deleted")

/-- `ConnectionManager.disconnect` (main.py lines 52-57): remove the socket
from the session's list, dropping the key when the list empties. -/
def disconnect (table : List (String × List Conn)) (websocket : Conn)
    (session_id : String) : List (String × List Conn) :=
  match tableLookup table session_id with
  | none => table
  | some conns =>
    let conns2 := removeFirst conns websocket
    if conns2 = [] then tableErase table session_id
    else tableSet table session_id conns2

/-- Result of one `send_update` call: the connection table afterwards, the
connections on which `send_json` was attempted (in order), and those for which
it succeeded (in order). -/
structure SendOutcome where
  table : List (String × List Conn)
  attempted : List Conn
  delivered : List Conn
deriving DecidableEq, Repr

/-- `ConnectionManager.send_update` (main.py lines 59-79).  `sendOk c` tells
whether `await connection.send_json(message)` succeeds on `c` (an exception is
caught, and the connection is collected into `dead_connections`, each of which
is then passed to `disconnect`). -/
def send_update (sendOk : Conn → Bool) (table : List (String × List Conn))
    (session_id : String) : SendOutcome :=
  match tableLookup table session_id with
  | none => ⟨table, [], []⟩
  | some conns =>
    let dead_connections := conns.filter (fun c => !sendOk c)
    let table2 := dead_connections.foldl (fun t conn => disconnect t conn session_id) table
    ⟨table2, conns, conns.filter (fun c => sendOk c)⟩

/-- The three seed queries of research.py lines 60-66 together with the
caller's `extra_queries`. -/
def research_queries (topic : String) (extra_queries : List String) : List String :=
  [topic ++ " overview", topic ++ " key concepts", topic ++ " latest research"]
    ++ extra_queries

/-- The body of the inner loop of `research_topic` (research.py lines 74-83):
the accumulator pairs `collected` with the `seen_links` set (kept as a list in
insertion order). -/
def research_collect (max_total_results : Nat) (q : String)
    (acc : List SourceRec × List String) (s : SearchResult) :
    List SourceRec × List String :=
  if acc.1.length ≥ max_total_results then acc
  else if s.link ∈ acc.2 then acc
  else (acc.1 ++ [{ title := s.title, url := s.link, snippet := s.snippet, query := q }],
        acc.2 ++ [s.link])

/-- One outer-loop iteration of `research_topic` (research.py lines 70-83). -/
def research_query (web_search : String → Nat → List SearchResult)
    (per_query max_total_results : Nat)
    (acc : List SourceRec × List String) (q : String) :
    List SourceRec × List String :=
  if acc.1.length ≥ max_total_results then acc
  else (web_search q per_query).foldl (research_collect max_total_results q) acc

/-- `research_topic` (research.py lines 50-84).  `web_search q n` is the Tavily
call `web_search(q, max_results=n)` (external, already url-filtered as in
research.py lines 36-47).  The two `break` statements fire exactly when
`len(collected) >= max_total_results`; since that bound is re-checked at the
top of each iteration and the length never decreases, they are rendered as
pass-through iterations. -/
def research_topic (web_search : String → Nat → List SearchResult)
    (topic : String) (extra_queries : List String)
    (per_query : Nat := 6) (max_total_results : Nat := 20) : List SourceRec :=
  ((research_queries topic extra_queries).foldl
      (research_query web_search per_query max_total_results) ([], [])).1

end backend

/-! ## Spec-side predicates

These follow the SPEC's wording (spec.md section 4.2), to be compared with the
gate and review-node functions embedded from the source above. -/

/-- Spec: "decision = `replan` if feedback is non-empty and not one of
{`approve`, `pending`}" (on the stripped, lowercased feedback). -/
def replanGateSpec (s : LectureState) : Prop :=
  let fb := pyLower (pyStripWs (optOrEmpty s.plan_feedback))
  fb ≠ "" ∧ fb ∉ (["approve", "pending"] : List String)

/-- The condition the CLI graph's `needs_replan` actually tests: only
`"approve"` is excluded. -/
def cliReplanCond (s : LectureState) : Prop :=
  let fb := pyLower (pyStripWs (optOrEmpty s.plan_feedback))
  fb ≠ "" ∧ fb ≠ "approve"

/-- Spec: "decision = `apply` if preference text is present and not one of
{`skip`, `pending`}" (on the stripped preference text). -/
def toneGateSpec (s : LectureState) : Prop :=
  let prefs := pyStripWs (optOrEmpty s.tone_prefs)
  prefs ≠ "" ∧ prefs ∉ (["skip", "pending"] : List String)

/-- The condition the CLI graph's `tone_next` actually tests: any non-empty
stripped preference text. -/
def cliToneCond (s : LectureState) : Prop :=
  pyStripWs (optOrEmpty s.tone_prefs) ≠ ""

/-- Waiting condition of the async `plan_review_node`: stripped `plan_feedback`
empty or the sentinel `"pending"`. -/
def planReviewWaits (s : LectureState) : Bool :=
  let e := pyStripWs (optOrEmpty s.plan_feedback)
  e == "" || e == "pending"

/-- Waiting condition of the async `claims_review_node`. -/
def claimsReviewWaits (s : LectureState) : Bool :=
  let e := pyStripWs (optOrEmpty s.claims_feedback)
  e == "" || e == "pending"

/-- Waiting condition of the async `review_node`: the raw (unstripped)
`human_feedback` empty or `"pending"`. -/
def reviewWaits (s : LectureState) : Bool :=
  let e := optOrEmpty s.human_feedback
  e == "" || e == "pending"

/-- Waiting condition of the async `tone_review_node`: only the literal
stripped sentinel `"pending"`; an empty value does not wait. -/
def toneReviewWaits (s : LectureState) : Bool :=
  pyStripWs (optOrEmpty s.tone_prefs) == "pending"

/-! ## Association-table lemmas -/

theorem tableLookup_set_self {α : Type} (t : List (String × α)) (k : String) (v : α) :
    tableLookup (tableSet t k v) k = some v := by
  induction t with
  | nil => simp [tableSet, tableLookup]
  | cons hd tl ih =>
    obtain ⟨k2, w⟩ := hd
    by_cases h : k2 = k <;> simp [tableSet, tableLookup, h, ih]

theorem tableLookup_set_other {α : Type} (t : List (String × α)) (k k2 : String)
    (v : α) (h : k2 ≠ k) : tableLookup (tableSet t k v) k2 = tableLookup t k2 := by
  induction t with
  | nil => simp [tableSet, tableLookup, Ne.symm h]
  | cons hd tl ih =>
    obtain ⟨k3, w⟩ := hd
    by_cases h3 : k3 = k
    · subst h3
      simp [tableSet, tableLookup, Ne.symm h]
    · simp [tableSet, tableLookup, h3, ih]

theorem tableLookup_erase_self {α : Type} (t : List (String × α)) (k : String) :
    tableLookup (tableErase t k) k = none := by
  induction t with
  | nil => simp [tableErase, tableLookup]
  | cons hd tl ih =>
    obtain ⟨k2, w⟩ := hd
    by_cases h : k2 = k <;> simp [tableErase, tableLookup, h, ih]

theorem tableLookup_erase_other {α : Type} (t : List (String × α)) (k k2 : String)
    (h : k2 ≠ k) : tableLookup (tableErase t k) k2 = tableLookup t k2 := by
  induction t with
  | nil => simp [tableErase, tableLookup]
  | cons hd tl ih =>
    obtain ⟨k3, w⟩ := hd
    by_cases h3 : k3 = k
    · subst h3
      simp [tableErase, tableLookup, Ne.symm h, ih]
    · simp [tableErase, tableLookup, h3, ih]

/-! ## Per-node two-phase characterizations (async graph) -/

theorem plan_review_node_spec (llm llm2 : String → String) (s : LectureState) :
    (backend.plan_review_node llm s).waiting_for_human = some (planReviewWaits s)
  ∧ (backend.plan_review_node llm s).checkpoint_type
      = some (if planReviewWaits s then some "plan_review" else none)
  ∧ backend.plan_review_node llm s = backend.plan_review_node llm2 s := by
  by_cases h1 : pyStripWs (optOrEmpty s.plan_feedback) = "" <;>
    by_cases h2 : pyStripWs (optOrEmpty s.plan_feedback) = "pending" <;>
    simp [backend.plan_review_node, planReviewWaits, h1, h2]

theorem claims_review_node_spec (llm llm2 : String → String) (s : LectureState) :
    (backend.claims_review_node llm s).waiting_for_human = some (claimsReviewWaits s)
  ∧ (backend.claims_review_node llm s).checkpoint_type
      = some (if claimsReviewWaits s then some "claims_review" else none)
  ∧ backend.claims_review_node llm s = backend.claims_review_node llm2 s := by
  by_cases h1 : pyStripWs (optOrEmpty s.claims_feedback) = "" <;>
    by_cases h2 : pyStripWs (optOrEmpty s.claims_feedback) = "pending" <;>
    simp [backend.claims_review_node, claimsReviewWaits, h1, h2]

theorem review_node_spec (llm llm2 : String → String) (s : LectureState) :
    (backend.review_node llm s).waiting_for_human = some (reviewWaits s)
  ∧ (backend.review_node llm s).checkpoint_type
      = some (if reviewWaits s then some "review" else none)
  ∧ backend.review_node llm s = backend.review_node llm2 s := by
  by_cases h1 : optOrEmpty s.human_feedback = "" <;>
    by_cases h2 : optOrEmpty s.human_feedback = "pending" <;>
    simp [backend.review_node, reviewWaits, h1, h2]

theorem tone_review_node_spec (llm llm2 : String → String) (s : LectureState) :
    (backend.tone_review_node llm s).waiting_for_human = some (toneReviewWaits s)
  ∧ (backend.tone_review_node llm s).checkpoint_type
      = some (if toneReviewWaits s then some "tone_review" else none)
  ∧ backend.tone_review_node llm s = backend.tone_review_node llm2 s := by
  by_cases h2 : pyStripWs (optOrEmpty s.tone_prefs) = "pending" <;>
    simp [backend.tone_review_node, toneReviewWaits, h2]

/-- C1: As stated, the claim is false for `tone_review`.  The amended claim
(proved here): each async human-review node returns without invoking the model
(its output is independent of the model), and sets `_waiting_for_human` to
`true` together with `_checkpoint_type :=` its own checkpoint name exactly when
its waiting condition holds, else sets `_waiting_for_human` to `false` and
`_checkpoint_type` to `None`; the waiting condition is stripped-feedback empty
or `"pending"` for `plan_review` and `claims_review`, raw feedback empty or
`"pending"` for `review`, but for `tone_review` only the stripped literal
`"pending"` — an empty `tone_prefs` completes immediately. -/
theorem C1_hitl_two_phase (llm llm2 : String → String) (s : LectureState) :
    ((backend.plan_review_node llm s).waiting_for_human = some (planReviewWaits s)
      ∧ (backend.plan_review_node llm s).checkpoint_type
          = some (if planReviewWaits s then some "plan_review" else none)
      ∧ backend.plan_review_node llm s = backend.plan_review_node llm2 s)
  ∧ ((backend.claims_review_node llm s).waiting_for_human = some (claimsReviewWaits s)
      ∧ (backend.claims_review_node llm s).checkpoint_type
          = some (if claimsReviewWaits s then some "claims_review" else none)
      ∧ backend.claims_review_node llm s = backend.claims_review_node llm2 s)
  ∧ ((backend.review_node llm s).waiting_for_human = some (reviewWaits s)
      ∧ (backend.review_node llm s).checkpoint_type
          = some (if reviewWaits s then some "review" else none)
      ∧ backend.review_node llm s = backend.review_node llm2 s)
  ∧ ((backend.tone_review_node llm s).waiting_for_human = some (toneReviewWaits s)
      ∧ (backend.tone_review_node llm s).checkpoint_type
          = some (if toneReviewWaits s then some "tone_review" else none)
      ∧ backend.tone_review_node llm s = backend.tone_review_node llm2 s) :=
  ⟨plan_review_node_spec llm llm2 s, claims_review_node_spec llm llm2 s,
   review_node_spec llm llm2 s, tone_review_node_spec llm llm2 s⟩

/-- C1 counterexample: on a state whose `tone_prefs` is absent (hence read as
the empty string), the claim requires `tone_review` to suspend
(`_waiting_for_human = true`, `_checkpoint_type = "tone_review"`); the code
instead completes with `_waiting_for_human = false` and `_checkpoint_type`
cleared to `None`. -/
theorem C1_tone_review_empty_counterexample :
    (backend.tone_review_node (fun t => t) {}).waiting_for_human = some false
  ∧ (backend.tone_review_node (fun t => t) {}).checkpoint_type = some none := by
  constructor <;> rfl

/-- C4: The claim holds for the async backend gate but not for the CLI graph's
gate, which it also cites.  Amended claim (proved here): the backend
`needs_replan` decides `"replan"` iff the stripped, lowercased `plan_feedback`
is non-empty and not in {`approve`, `pending`} (else `"continue"`); the CLI
graph's `needs_replan` excludes only `"approve"`, so it decides `"replan"` iff
the stripped, lowercased value is non-empty and differs from `"approve"`. -/
theorem C4_replan_gates (s : LectureState) :
    (backend.needs_replan s = "replan" ↔ replanGateSpec s)
  ∧ (backend.needs_replan s = "continue" ↔ ¬ replanGateSpec s)
  ∧ (lecture_assistant.needs_replan s = "replan" ↔ cliReplanCond s)
  ∧ (lecture_assistant.needs_replan s = "continue" ↔ ¬ cliReplanCond s) := by
  by_cases h1 : pyLower (pyStripWs (optOrEmpty s.plan_feedback)) = "" <;>
    by_cases h2 : pyLower (pyStripWs (optOrEmpty s.plan_feedback)) = "approve" <;>
    by_cases h3 : pyLower (pyStripWs (optOrEmpty s.plan_feedback)) = "pending" <;>
    simp [backend.needs_replan, lecture_assistant.needs_replan, replanGateSpec,
      cliReplanCond, h1, h2, h3]

/-- C4 counterexample: on `plan_feedback = "pending"` the claim requires
`"continue"`, but the CLI graph's gate (graph.py lines 187-191, cited by the
claim) returns `"replan"`. -/
theorem C4_cli_pending_counterexample :
    lecture_assistant.needs_replan { plan_feedback := some "pending" } = "replan" := by
  decide

/-- C5: The claim holds for the async backend gate but not for the CLI graph's
gate, which it also cites.  Amended claim (proved here): the backend
`tone_next` decides `"apply"` iff the stripped `tone_prefs` is non-empty and
not in {`skip`, `pending`} (else `"skip"`); the CLI graph's `tone_next` decides
`"apply"` for any non-empty stripped `tone_prefs`, with no sentinel
exclusion. -/
theorem C5_tone_gates (s : LectureState) :
    (backend.tone_next s = "apply" ↔ toneGateSpec s)
  ∧ (backend.tone_next s = "skip" ↔ ¬ toneGateSpec s)
  ∧ (lecture_assistant.tone_next s = "apply" ↔ cliToneCond s)
  ∧ (lecture_assistant.tone_next s = "skip" ↔ ¬ cliToneCond s) := by
  by_cases h1 : pyStripWs (optOrEmpty s.tone_prefs) = "" <;>
    by_cases h2 : pyStripWs (optOrEmpty s.tone_prefs) = "skip" <;>
    by_cases h3 : pyStripWs (optOrEmpty s.tone_prefs) = "pending" <;>
    simp [backend.tone_next, lecture_assistant.tone_next, toneGateSpec,
      cliToneCond, h1, h2, h3]

/-- C5 counterexample: on `tone_prefs = "skip"` the claim requires the decision
`"skip"`, but the CLI graph's gate (graph.py lines 551-555, cited by the
claim) returns `"apply"`. -/
theorem C5_cli_skip_counterexample :
    lecture_assistant.tone_next { tone_prefs := some "skip" } = "apply" := by
  decide

/-- C3: code bug in the async graph.  On a state whose `plan_feedback` is
non-approve text (here `"make it shorter"`), `needs_replan` decides
`"replan"`; the async `search_plan_node`'s update (graph_async.py lines
104-108) does not touch `plan_feedback`, so after the Executor merges it the
gate still decides `"replan"` — the replan loop repeats on the same stale
feedback until the recursion limit.  The CLI graph's `search_plan_node`
(graph.py lines 104-108) resets `plan_feedback` to `"approve"` precisely "to
avoid infinite replan loop", and there the merged state decides
`"continue"`. -/
theorem C3_async_replan_not_cleared :
    backend.needs_replan { topic := "QC", plan_feedback := some "make it shorter" } = "replan"
  ∧ backend.needs_replan
      (applyUpdate { topic := "QC", plan_feedback := some "make it shorter" }
        (backend.search_plan_node (fun t => t ++ "\n- basics")
          { topic := "QC", plan_feedback := some "make it shorter" }))
      = "replan"
  ∧ lecture_assistant.needs_replan
      (applyUpdate { topic := "QC", plan_feedback := some "make it shorter" }
        (lecture_assistant.search_plan_node (fun t => t ++ "\n- basics")
          { topic := "QC", plan_feedback := some "make it shorter" }))
      = "continue" := by
  refine ⟨by decide, ?_, ?_⟩ <;> decide

/-- C2: As stated, the claim is false: it covers every registered session, but
a registered session whose stored state is still `None` (it is created that
way and only `run_session_step_by_step` later stores a snapshot) is
400-rejected by `submit_feedback` even for a valid `checkpoint_type`, with
nothing written and no resume scheduled.  Amended claim (proved here): for
every registered session, if its state snapshot is unavailable,
`submit_feedback` returns the registry unchanged with a 400 client error for
every `checkpoint_type`; if a snapshot is available, a `checkpoint_type`
outside {plan_review, claims_review, review, tone_review} yields the registry
unchanged with a 400 client error, and a valid `checkpoint_type` rewrites only
the correspondingly named WorkflowState field to the decision string (a
single-field record update, every other field kept) and reports that an
asynchronous resume task was scheduled. -/
theorem C2_submit_feedback (reg : List (String × backend.SessionRec))
    (session_id checkpoint_type decision : String)
    (session : backend.SessionRec)
    (hs : tableLookup reg session_id = some session) :
    (session.state = none →
       backend.submit_feedback reg session_id checkpoint_type decision
         = (reg, .error (400, "Session state not available")))
  ∧ ∀ st : LectureState, session.state = some st →
      (checkpoint_type ∉ (["plan_review", "claims_review", "review", "tone_review"] : List String) →
         backend.submit_feedback reg session_id checkpoint_type decision
           = (reg, .error (400, "Unknown checkpoint: " ++ checkpoint_type)))
    ∧ (checkpoint_type = "plan_review" →
         backend.submit_feedback reg session_id checkpoint_type decision
           = (tableSet reg session_id
                { session with state := some { st with plan_feedback := some decision } }, .ok true))
    ∧ (checkpoint_type = "claims_review" →
         backend.submit_feedback reg session_id checkpoint_type decision
           = (tableSet reg session_id
                { session with state := some { st with claims_feedback := some decision } }, .ok true))
    ∧ (checkpoint_type = "review" →
         backend.submit_feedback reg session_id checkpoint_type decision
           = (tableSet reg session_id
                { session with state := some { st with human_feedback := some decision } }, .ok true))
    ∧ (checkpoint_type = "tone_review" →
         backend.submit_feedback reg session_id checkpoint_type decision
           = (tableSet reg session_id
                { session with state := some { st with tone_prefs := some decision } }, .ok true)) := by
  constructor
  · intro hnone
    simp [backend.submit_feedback, hs, hnone]
  intro st hst
  refine ⟨?_, ?_, ?_, ?_, ?_⟩
  · intro h
    simp only [List.mem_cons, List.mem_singleton, not_or] at h
    obtain ⟨h1, h2, h3, h4⟩ := h
    simp [backend.submit_feedback, hs, hst, h1, h2, h3, h4]
  · intro h
    subst h
    simp [backend.submit_feedback, hs, hst]
  · intro h
    subst h
    simp [backend.submit_feedback, hs, hst]
  · intro h
    subst h
    simp [backend.submit_feedback, hs, hst]
  · intro h
    subst h
    simp [backend.submit_feedback, hs, hst]

theorem C2_submit_feedback_witness :
    (backend.submit_feedback [("s1", { state := none })] "s1" "plan_review" "x"
       = ([("s1", { state := none })], .error (400, "Session state not available")))
  ∧ (backend.submit_feedback [("s1", { state := some {} })] "s1" "checkpoint" "x"
       = ([("s1", { state := some {} })], .error (400, "Unknown checkpoint: " ++ "checkpoint")))
  ∧ (backend.submit_feedback [("s1", { state := some {} })] "s1" "plan_review" "go deeper"
       = (tableSet [("s1", { state := some {} })] "s1"
            { state := some { plan_feedback := some "go deeper" } }, .ok true)) :=
  ⟨(C2_submit_feedback [("s1", { state := none })] "s1" "plan_review" "x"
      { state := none } (by decide)).1 rfl,
   ((C2_submit_feedback [("s1", { state := some {} })] "s1" "checkpoint" "x"
      { state := some {} } (by decide)).2 {} rfl).1 (by decide),
   ((C2_submit_feedback [("s1", { state := some {} })] "s1" "plan_review" "go deeper"
      { state := some {} } (by decide)).2 {} rfl).2.1 rfl⟩

/-- C2 counterexample: a registered session whose stored state is still `None`
(its value at creation, main.py line 482).  The claim requires the valid
`checkpoint_type` `"plan_review"` to write `plan_feedback` and schedule a
resume, but `submit_feedback` 400-rejects the request without touching the
registry or scheduling anything. -/
theorem C2_state_unavailable_counterexample :
    backend.submit_feedback [("s1", { state := none })] "s1" "plan_review" "approve"
      = ([("s1", { state := none })], .error (400, "Session state not available")) := by
  rfl

/-- The WorkflowState snapshot stored for a session id, as the server reads it
back (`active_sessions[session_id]["state"]`). -/
def lookupState (reg : List (String × backend.SessionRec)) (session_id : String) :
    Option LectureState :=
  (tableLookup reg session_id).bind (fun session => session.state)

/-- C7: round-trip of a feedback decision.  After
`submit_feedback(session_id, "plan_review", "revise constraints X")` on a
registered session, a resume was scheduled, the stored snapshot's
`plan_feedback` equals exactly `"revise constraints X"`, and when
`plan_review_node` next runs on that snapshot and its update is merged, the
resulting state's `plan_feedback` still equals exactly
`"revise constraints X"`. -/
theorem C7_plan_feedback_round_trip (reg : List (String × backend.SessionRec))
    (session_id : String) (session : backend.SessionRec) (st : LectureState)
    (llm : String → String)
    (hs : tableLookup reg session_id = some session)
    (hst : session.state = some st) :
    (backend.submit_feedback reg session_id "plan_review" "revise constraints X").2 = .ok true
  ∧ lookupState (backend.submit_feedback reg session_id "plan_review" "revise constraints X").1
      session_id = some { st with plan_feedback := some "revise constraints X" }
  ∧ (applyUpdate { st with plan_feedback := some "revise constraints X" }
       (backend.plan_review_node llm { st with plan_feedback := some "revise constraints X" })).plan_feedback
      = some "revise constraints X" := by
  refine ⟨?_, ?_, ?_⟩
  · simp [backend.submit_feedback, hs, hst]
  · simp [backend.submit_feedback, hs, hst, lookupState, tableLookup_set_self]
  · have hstrip : pyStripWs "revise constraints X" = "revise constraints X" := by decide
    have hne : ¬ ("revise constraints X" = "" ∨ "revise constraints X" = "pending") := by
      decide
    simp [backend.plan_review_node, applyUpdate, optOrEmpty, hstrip, hne]

theorem C7_plan_feedback_round_trip_witness :
    (backend.submit_feedback [("s1", { state := some {} })] "s1" "plan_review"
        "revise constraints X").2 = .ok true
  ∧ lookupState (backend.submit_feedback [("s1", { state := some {} })] "s1" "plan_review"
        "revise constraints X").1 "s1"
      = some { plan_feedback := some "revise constraints X" }
  ∧ (applyUpdate { plan_feedback := some "revise constraints X" }
       (backend.plan_review_node (fun t => t)
         { plan_feedback := some "revise constraints X" })).plan_feedback
      = some "revise constraints X" :=
  C7_plan_feedback_round_trip [("s1", { state := some {} })] "s1"
    { state := some {} } {} (fun t => t) (by decide) rfl

/-- C9: As stated, the claim is false: subscriber registrations survive
deletion.  Amended claim (proved here): deleting a known session id removes
its Session record and its stored graph (the per-session checkpoint holder),
leaves every other session's records untouched, and returns ok — but
`manager.active_connections` is left exactly as it was, so subscriber entries
for the deleted id remain; deleting an unknown id returns a 404 client error
with the server state unchanged. -/
theorem C9_delete_session (srv : backend.ServerState) (session_id : String) :
    (∀ session, tableLookup srv.active_sessions session_id = some session →
        (backend.delete_session srv session_id).2 = .ok "deleted"
      ∧ tableLookup (backend.delete_session srv session_id).1.active_sessions session_id = none
      ∧ tableLookup (backend.delete_session srv session_id).1.session_graphs session_id = none
      ∧ (backend.delete_session srv session_id).1.active_connections = srv.active_connections
      ∧ (∀ sid2, sid2 ≠ session_id →
            tableLookup (backend.delete_session srv session_id).1.active_sessions sid2
              = tableLookup srv.active_sessions sid2
          ∧ tableLookup (backend.delete_session srv session_id).1.session_graphs sid2
              = tableLookup srv.session_graphs sid2))
  ∧ (tableLookup srv.active_sessions session_id = none →
       backend.delete_session srv session_id = (srv, .error (404, "Session not found"))) := by
  constructor
  · intro session hs
    refine ⟨?_, ?_, ?_, ?_, ?_⟩
    · simp [backend.delete_session, hs]
    · simp [backend.delete_session, hs, tableLookup_erase_self]
    · simp [backend.delete_session, hs, tableLookup_erase_self]
    · simp [backend.delete_session, hs]
    · intro sid2 hne
      constructor <;> simp [backend.delete_session, hs, tableLookup_erase_other _ _ _ hne]
  · intro hs
    simp [backend.delete_session, hs]

theorem C9_delete_session_witness :
    ((backend.delete_session
        { active_sessions := [("s1", { state := some {} })],
          session_graphs := [("s1", { gid := 3 })],
          active_connections := [("s1", [{ cid := 7 }])] } "s1").2 = .ok "deleted")
  ∧ tableLookup (backend.delete_session
        { active_sessions := [("s1", { state := some {} })],
          session_graphs := [("s1", { gid := 3 })],
          active_connections := [("s1", [{ cid := 7 }])] } "s1").1.active_sessions "s1" = none
  ∧ (backend.delete_session
        { active_sessions := [("s2", { state := none })],
          session_graphs := [], active_connections := [] } "s1")
      = ({ active_sessions := [("s2", { state := none })],
           session_graphs := [], active_connections := [] }, .error (404, "Session not found")) :=
  ⟨((C9_delete_session
      { active_sessions := [("s1", { state := some {} })],
        session_graphs := [("s1", { gid := 3 })],
        active_connections := [("s1", [{ cid := 7 }])] } "s1").1
      { state := some {} } (by decide)).1,
   ((C9_delete_session
      { active_sessions := [("s1", { state := some {} })],
        session_graphs := [("s1", { gid := 3 })],
        active_connections := [("s1", [{ cid := 7 }])] } "s1").1
      { state := some {} } (by decide)).2.1,
   (C9_delete_session
      { active_sessions := [("s2", { state := none })],
        session_graphs := [], active_connections := [] } "s1").2 (by decide)⟩

/-- C9 counterexample: after deleting session `"s1"`, which had a live
subscriber, the subscriber entry for `"s1"` is still present in
`manager.active_connections` — the claim requires that no subscriber entry for
the deleted id remain. -/
theorem C9_subscribers_survive_counterexample :
    tableLookup (backend.delete_session
        { active_sessions := [("s1", { state := some {} })],
          session_graphs := [("s1", { gid := 3 })],
          active_connections := [("s1", [{ cid := 7 }])] } "s1").1.active_connections "s1"
      = some [{ cid := 7 }] := by
  decide

/-- C6: the claims-extraction recovery policy.  For any model output `raw`
(the chain applied to the state's topic and prioritized sources): the node's
update always carries a `claims` field, and whenever parsing `raw` as a JSON
object with `claims`/`citation_map` fails, the update is exactly the fallback:
`claims = [{id: 1, text: raw, citations: []}]` with `raw` verbatim, and an
empty `citation_map`. -/
theorem C6_claims_extract_fallback
    (jsonParse : String → Option (Option (List ClaimObj) × Option CitationMap))
    (chain : String → List SourceRec → String) (s : LectureState) :
    ((backend.claims_extract_node jsonParse chain s).claims).isSome
  ∧ (jsonParse (chain s.topic s.prioritized_sources) = none →
       backend.claims_extract_node jsonParse chain s
         = { claims := some [{ id := 1, text := chain s.topic s.prioritized_sources, citations := [] }],
             citation_map := some [],
             status := some "claims_extracting",
             waiting_for_human := some false }) := by
  constructor
  · cases hp : jsonParse (chain s.topic s.prioritized_sources) with
    | none => simp [backend.claims_extract_node, hp]
    | some pair => simp [backend.claims_extract_node, hp]
  · intro hp
    simp [backend.claims_extract_node, hp]

theorem C6_claims_extract_fallback_witness :
    ((backend.claims_extract_node (fun _ => none) (fun _ _ => "not json")
        { topic := "QC" }).claims).isSome
  ∧ backend.claims_extract_node (fun _ => none) (fun _ _ => "not json") { topic := "QC" }
      = { claims := some [{ id := 1, text := "not json", citations := [] }],
          citation_map := some [],
          status := some "claims_extracting",
          waiting_for_human := some false } :=
  ⟨(C6_claims_extract_fallback (fun _ => none) (fun _ _ => "not json") { topic := "QC" }).1,
   (C6_claims_extract_fallback (fun _ => none) (fun _ _ => "not json") { topic := "QC" }).2 rfl⟩

/-! ## Broadcast lemmas (`ConnectionManager.send_update`) -/

theorem removeFirst_cons_self {α : Type} [DecidableEq α] (c : α) (l : List α) :
    removeFirst (c :: l) c = l := by
  simp [removeFirst]

theorem removeFirst_cons_ne {α : Type} [DecidableEq α] {c d : α} (l : List α)
    (h : d ≠ c) : removeFirst (c :: l) d = c :: removeFirst l d := by
  simp [removeFirst, Ne.symm h]

theorem foldl_removeFirst_cons {α : Type} [DecidableEq α] (c : α) :
    ∀ (ds t : List α), (∀ d ∈ ds, d ≠ c) →
      ds.foldl removeFirst (c :: t) = c :: ds.foldl removeFirst t
  | [], _, _ => rfl
  | d :: ds, t, h => by
    have hd : d ≠ c := h d (by simp)
    rw [List.foldl_cons, List.foldl_cons, removeFirst_cons_ne t hd]
    exact foldl_removeFirst_cons c ds (removeFirst t d) (fun x hx => h x (by simp [hx]))

theorem foldl_removeFirst_filter {α : Type} [DecidableEq α] (ok : α → Bool) :
    ∀ l : List α,
      (l.filter (fun c => !ok c)).foldl removeFirst l = l.filter (fun c => ok c)
  | [] => rfl
  | c :: rest => by
    cases hc : ok c with
    | false =>
      have e1 : (c :: rest).filter (fun x => !ok x) = c :: rest.filter (fun x => !ok x) := by
        simp [List.filter_cons, hc]
      have e2 : (c :: rest).filter (fun x => ok x) = rest.filter (fun x => ok x) := by
        simp [List.filter_cons, hc]
      rw [e1, e2, List.foldl_cons, removeFirst_cons_self]
      exact foldl_removeFirst_filter ok rest
    | true =>
      have e1 : (c :: rest).filter (fun x => !ok x) = rest.filter (fun x => !ok x) := by
        simp [List.filter_cons, hc]
      have e2 : (c :: rest).filter (fun x => ok x) = c :: rest.filter (fun x => ok x) := by
        simp [List.filter_cons, hc]
      have hne : ∀ d ∈ rest.filter (fun x => !ok x), d ≠ c := by
        intro d hd
        have hdo : ok d = false := by simpa using (List.mem_filter.mp hd).2
        intro e
        rw [e, hc] at hdo
        exact Bool.noConfusion hdo
      rw [e1, e2, foldl_removeFirst_cons c (rest.filter (fun x => !ok x)) rest hne,
        foldl_removeFirst_filter ok rest]

theorem disconnect_foldl_cons (sid : String) (c : backend.Conn) :
    ∀ (ds : List backend.Conn) (t : List (String × List backend.Conn))
      (l : List backend.Conn),
      tableLookup t sid = some (c :: l) → (∀ d ∈ ds, d ≠ c) →
        tableLookup (ds.foldl (fun t2 conn => backend.disconnect t2 conn sid) t) sid
            = some (c :: ds.foldl removeFirst l)
        ∧ ∀ sid2, sid2 ≠ sid →
            tableLookup (ds.foldl (fun t2 conn => backend.disconnect t2 conn sid) t) sid2
              = tableLookup t sid2
  | [], t, l, ht, _ => ⟨by simpa using ht, fun _ _ => rfl⟩
  | d :: ds, t, l, ht, h => by
    have hd : d ≠ c := h d (by simp)
    have step : backend.disconnect t d sid = tableSet t sid (c :: removeFirst l d) := by
      simp [backend.disconnect, ht, removeFirst_cons_ne l hd]
    have ih := disconnect_foldl_cons sid c ds (tableSet t sid (c :: removeFirst l d))
      (removeFirst l d) (tableLookup_set_self t sid (c :: removeFirst l d))
      (fun x hx => h x (by simp [hx]))
    rw [List.foldl_cons, step]
    refine ⟨by rw [ih.1, List.foldl_cons], ?_⟩
    intro sid2 hs2
    rw [ih.2 sid2 hs2, tableLookup_set_other t sid sid2 _ hs2]

theorem disconnect_foldl_filter (sid : String) (ok : backend.Conn → Bool) :
    ∀ (conns : List backend.Conn) (t : List (String × List backend.Conn)),
      tableLookup t sid = some conns →
        (tableLookup ((conns.filter (fun c => !ok c)).foldl
              (fun t2 conn => backend.disconnect t2 conn sid) t) sid).getD []
            = conns.filter (fun c => ok c)
        ∧ ∀ sid2, sid2 ≠ sid →
            tableLookup ((conns.filter (fun c => !ok c)).foldl
                (fun t2 conn => backend.disconnect t2 conn sid) t) sid2
              = tableLookup t sid2
  | [], t, ht => by simp [ht]
  | c :: rest, t, ht => by
    cases hc : ok c with
    | true =>
      have e1 : (c :: rest).filter (fun x => !ok x) = rest.filter (fun x => !ok x) := by
        simp [List.filter_cons, hc]
      have e2 : (c :: rest).filter (fun x => ok x) = c :: rest.filter (fun x => ok x) := by
        simp [List.filter_cons, hc]
      have hne : ∀ d ∈ rest.filter (fun x => !ok x), d ≠ c := by
        intro d hd
        have hdo : ok d = false := by simpa using (List.mem_filter.mp hd).2
        intro e
        rw [e, hc] at hdo
        exact Bool.noConfusion hdo
      have u := disconnect_foldl_cons sid c (rest.filter (fun x => !ok x)) t rest ht hne
      rw [e1, e2]
      refine ⟨?_, u.2⟩
      rw [u.1, Option.getD_some, foldl_removeFirst_filter ok rest]
    | false =>
      have e1 : (c :: rest).filter (fun x => !ok x) = c :: rest.filter (fun x => !ok x) := by
        simp [List.filter_cons, hc]
      have e2 : (c :: rest).filter (fun x => ok x) = rest.filter (fun x => ok x) := by
        simp [List.filter_cons, hc]
      rw [e1, e2, List.foldl_cons]
      by_cases hr : rest = []
      · subst hr
        have step : backend.disconnect t c sid = tableErase t sid := by
          simp [backend.disconnect, ht, removeFirst_cons_self]
        rw [step]
        simp only [List.filter_nil, List.foldl_nil]
        refine ⟨by simp [tableLookup_erase_self], ?_⟩
        intro sid2 hs2
        exact tableLookup_erase_other t sid sid2 hs2
      · have step : backend.disconnect t c sid = tableSet t sid rest := by
          simp [backend.disconnect, ht, removeFirst_cons_self, hr]
        rw [step]
        have ih := disconnect_foldl_filter sid ok rest (tableSet t sid rest)
          (tableLookup_set_self t sid rest)
        refine ⟨ih.1, ?_⟩
        intro sid2 hs2
        rw [ih.2 sid2 hs2, tableLookup_set_other t sid sid2 rest hs2]

/-- C8: publishing to a session with registered subscribers attempts delivery
to every one of them in registration order; exactly the non-failing
subscribers receive the message, every failing subscriber is removed from the
session's subscriber list while the others remain (in order), other sessions'
subscriber lists are untouched, and the call is a total function (the
per-subscriber exception is caught, never propagated). -/
theorem C8_send_update (sendOk : backend.Conn → Bool)
    (table : List (String × List backend.Conn)) (session_id : String)
    (conns : List backend.Conn)
    (h : tableLookup table session_id = some conns) :
    (backend.send_update sendOk table session_id).attempted = conns
  ∧ (backend.send_update sendOk table session_id).delivered
      = conns.filter (fun c => sendOk c)
  ∧ (tableLookup (backend.send_update sendOk table session_id).table session_id).getD []
      = conns.filter (fun c => sendOk c)
  ∧ (∀ c : backend.Conn, ¬ sendOk c →
       c ∉ (tableLookup (backend.send_update sendOk table session_id).table session_id).getD [])
  ∧ ∀ sid2, sid2 ≠ session_id →
      tableLookup (backend.send_update sendOk table session_id).table sid2
        = tableLookup table sid2 := by
  have main := disconnect_foldl_filter session_id sendOk conns table h
  refine ⟨?_, ?_, ?_, ?_, ?_⟩
  · simp [backend.send_update, h]
  · simp [backend.send_update, h]
  · simp only [backend.send_update, h]
    exact main.1
  · intro c hc
    simp only [backend.send_update, h]
    rw [main.1]
    intro hmem
    exact hc (by simpa using (List.mem_filter.mp hmem).2)
  · intro sid2 hs2
    simp only [backend.send_update, h]
    exact main.2 sid2 hs2

theorem C8_send_update_witness :
    (backend.send_update (fun c => c.cid == 1)
        [("s1", [{ cid := 1 }, { cid := 2 }])] "s1").attempted
      = [{ cid := 1 }, { cid := 2 }]
  ∧ (backend.send_update (fun c => c.cid == 1)
        [("s1", [{ cid := 1 }, { cid := 2 }])] "s1").delivered
      = [({ cid := 1 } : backend.Conn), { cid := 2 }].filter (fun c => c.cid == 1)
  ∧ (tableLookup (backend.send_update (fun c => c.cid == 1)
        [("s1", [{ cid := 1 }, { cid := 2 }])] "s1").table "s1").getD []
      = [({ cid := 1 } : backend.Conn), { cid := 2 }].filter (fun c => c.cid == 1) :=
  ⟨(C8_send_update (fun c => c.cid == 1) [("s1", [{ cid := 1 }, { cid := 2 }])] "s1"
      [{ cid := 1 }, { cid := 2 }] (by decide)).1,
   (C8_send_update (fun c => c.cid == 1) [("s1", [{ cid := 1 }, { cid := 2 }])] "s1"
      [{ cid := 1 }, { cid := 2 }] (by decide)).2.1,
   (C8_send_update (fun c => c.cid == 1) [("s1", [{ cid := 1 }, { cid := 2 }])] "s1"
      [{ cid := 1 }, { cid := 2 }] (by decide)).2.2.1⟩

/-! ## Research aggregation invariants -/

theorem foldl_inv {α β : Type} (P : β → Prop) (f : β → α → β) :
    ∀ (l : List α) (b : β),
      (∀ b2 a, a ∈ l → P b2 → P (f b2 a)) → P b → P (l.foldl f b)
  | [], _, _, hb => hb
  | a :: l, b, hstep, hb =>
    foldl_inv P f l (f b a)
      (fun b2 x hx => hstep b2 x (by simp [hx]))
      (hstep b a (by simp) hb)

/-- Loop invariant of `research_topic`: the collected list is capped, its urls
are pairwise distinct and all recorded in `seen_links`, and every collected
record was built from a result of searching its own `query` field (which is
one of the queries being iterated). -/
def researchInv (max : Nat) (qs : List String)
    (ws : String → Nat → List SearchResult) (pq : Nat)
    (acc : List SourceRec × List String) : Prop :=
  acc.1.length ≤ max
  ∧ (acc.1.map SourceRec.url).Nodup
  ∧ (∀ r ∈ acc.1, r.url ∈ acc.2)
  ∧ (∀ r ∈ acc.1, r.query ∈ qs
      ∧ ∃ srec ∈ ws r.query pq,
          r = { title := srec.title, url := srec.link, snippet := srec.snippet,
                query := r.query })

theorem research_collect_inv (max : Nat) (qs : List String)
    (ws : String → Nat → List SearchResult) (pq : Nat) (q : String) (hq : q ∈ qs)
    (acc : List SourceRec × List String) (s : SearchResult) (hs : s ∈ ws q pq)
    (hinv : researchInv max qs ws pq acc) :
    researchInv max qs ws pq (backend.research_collect max q acc s) := by
  obtain ⟨hlen, hnodup, hsub, hprov⟩ := hinv
  unfold backend.research_collect
  by_cases h1 : acc.1.length ≥ max
  · simpa [h1] using ⟨hlen, hnodup, hsub, hprov⟩
  · by_cases h2 : s.link ∈ acc.2
    · simpa [h1, h2] using ⟨hlen, hnodup, hsub, hprov⟩
    · simp only [h1, h2, if_false]
      refine ⟨?_, ?_, ?_, ?_⟩
      · simp only [List.length_append, List.length_singleton]
        omega
      · rw [List.map_append]
        refine List.Nodup.append hnodup (List.nodup_singleton _) ?_
        intro x hx hx2
        simp only [List.map_cons, List.map_nil, List.mem_singleton] at hx2
        subst hx2
        obtain ⟨r2, hr2, hurl⟩ := List.mem_map.mp hx
        exact h2 (hurl ▸ hsub r2 hr2)
      · intro r hr
        rcases List.mem_append.mp hr with hmem | hmem
        · exact List.mem_append_left _ (hsub r hmem)
        · simp only [List.mem_singleton] at hmem
          subst hmem
          simp
      · intro r hr
        rcases List.mem_append.mp hr with hmem | hmem
        · exact hprov r hmem
        · simp only [List.mem_singleton] at hmem
          subst hmem
          exact ⟨hq, s, hs, rfl⟩

theorem research_query_inv (max : Nat) (qs : List String)
    (ws : String → Nat → List SearchResult) (pq : Nat)
    (acc : List SourceRec × List String) (q : String) (hq : q ∈ qs)
    (hinv : researchInv max qs ws pq acc) :
    researchInv max qs ws pq (backend.research_query ws pq max acc q) := by
  unfold backend.research_query
  by_cases h1 : acc.1.length ≥ max
  · simpa [h1] using hinv
  · simp only [h1, if_false]
    exact foldl_inv _ _ (ws q pq) acc
      (fun b2 a ha hb => research_collect_inv max qs ws pq q hq b2 a ha hb) hinv

/-- C10: for every search oracle, topic and extra-query list, `research_topic`
returns at most `max_total_results` records (default 20), their `url` values
are pairwise distinct (the `seen_links` set skips duplicate links across
queries), and each record carries the query string that produced it: its
`query` field is one of the issued queries and its remaining fields come from
a search result of exactly that query. -/
theorem C10_research_topic (ws : String → Nat → List SearchResult)
    (topic : String) (extra_queries : List String) (pq max : Nat) :
    (backend.research_topic ws topic extra_queries pq max).length ≤ max
  ∧ ((backend.research_topic ws topic extra_queries pq max).map SourceRec.url).Nodup
  ∧ ∀ r ∈ backend.research_topic ws topic extra_queries pq max,
      r.query ∈ backend.research_queries topic extra_queries
      ∧ ∃ srec ∈ ws r.query pq,
          r = { title := srec.title, url := srec.link, snippet := srec.snippet,
                query := r.query } := by
  have hinv : researchInv max (backend.research_queries topic extra_queries) ws pq
      ((backend.research_queries topic extra_queries).foldl
         (backend.research_query ws pq max) ([], [])) :=
    foldl_inv _ _ (backend.research_queries topic extra_queries) ([], [])
      (fun b2 a ha hb => research_query_inv max _ ws pq b2 a ha hb)
      ⟨by simp, by simp, by simp, by simp⟩
  exact ⟨hinv.1, hinv.2.1, fun r hr => hinv.2.2.2 r hr⟩

theorem C10_research_topic_witness :
    (backend.research_topic (fun _ _ => [{ title := "t", link := "u", snippet := "sn" }])
        "T" [] 6 20).length ≤ 20
  ∧ ({ title := "t", url := "u", snippet := "sn", query := "T overview" } : SourceRec).query
      ∈ backend.research_queries "T" [] :=
  ⟨(C10_research_topic (fun _ _ => [{ title := "t", link := "u", snippet := "sn" }])
      "T" [] 6 20).1,
   ((C10_research_topic (fun _ _ => [{ title := "t", link := "u", snippet := "sn" }])
      "T" [] 6 20).2.2
      { title := "t", url := "u", snippet := "sn", query := "T overview" } (by decide)).1⟩
